import Mathlib

/-!
Shallow embedding of the Twitter-Search-API-Python repository
(src/TwitterSearch.py, src/TwitterSlicer.py) used to check the
natural-language specification against the code.

The embedding translates the Python source faithfully:
mutable object state becomes explicit state passing, the recursive
retry chain and the pagination `while` loop take an explicit fuel
argument (a run whose result is `Option.none` at every fuel models
nontermination), Python exceptions become explicit error values,
and side effects (HTTP gets, sleeps, session rotations, file
opens/closes/writes) are recorded in an event log.
-/

/-- Source constant `MAX_RETRIES_SESSION = 5` (src/TwitterSearch.py line 15). -/
def MAX_RETRIES_SESSION : Nat := 5

/-- Source constant `MAX_RETRIES = MAX_RETRIES_SESSION * 5` (src/TwitterSearch.py line 16). -/
def MAX_RETRIES : Nat := MAX_RETRIES_SESSION * 5

/-- Abstract JSON payload returned by `response.json()`; payloads are
distinguished only by a tag, since their content is never inspected by
`execute_search`. -/
inductive Payload where
  | data (tag : Nat)
deriving DecidableEq

/-- Result of one `self.session.get(url)` call as seen by `execute_search`:
either a normal response whose `.json()` is returned, or a raised
`requests.HTTPError` carrying the response status code, the response body
and the optional `x-rate-limit-reset` header value. -/
inductive GetResult where
  | ok (d : Payload)
  | httpError (status : Nat) (body : Payload) (rateLimitReset : Option Nat)

/-- Python exceptions that the embedded code can raise. -/
inductive PyError where
  | keyError (k : String)
  | typeError
  | valueError
deriving DecidableEq

/-- Python return value of `execute_search`: the implicit/explicit `None`,
or a JSON payload. -/
inductive PyFetchReturn where
  | pyNone
  | json (p : Payload)
deriving DecidableEq

/-- Observable events of one `execute_search` run: an HTTP get issued with
the given `retry_num`, a `time.sleep(seconds)`, or a session/user-agent
rotation performed while handling the attempt with the given `retry_num`. -/
inductive FEv where
  | get (retryNum : Nat)
  | slept (seconds : Nat)
  | rotated (retryNum : Nat)
deriving DecidableEq

/-- Result of a Python call: a normal return, or an uncaught exception. -/
inductive PyOutcome (α : Type) where
  | ret (a : α)
  | exn (e : PyError)
deriving DecidableEq

/-- One run of `execute_search`: its event log and its result.
`result = Option.none` means the fuel ran out with the recursion still
going (used to witness nontermination); `some r` means the Python code
returned, either normally (`PyOutcome.ret`) or by raising an uncaught
exception (`PyOutcome.exn`). -/
structure FetchRun where
  log : List FEv
  result : Option (PyOutcome PyFetchReturn)
deriving DecidableEq

/-- Embedding of `TwitterSearch.execute_search` (src/TwitterSearch.py
lines 68-106).  `env retryNum` is the outcome of the `session.get` issued
by the call whose `retry_num` equals `retryNum` (each recursive call
increments `retry_num` by one, so this indexes the attempts).
Mirrors the source exactly: a 400 error returns the error body; a 429
error sleeps `reset + retry_num * error_delay` seconds and then falls off
the end of the function (Python returns `None`), raising `KeyError` if the
`x-rate-limit-reset` header is absent; any other `HTTPError` sleeps
`error_delay`, rotates the session when `retry_num % MAX_RETRIES_SESSION
== 0 and retry_num > 0`, returns `None` when (`elif`) `retry_num ==
MAX_RETRIES`, and otherwise recurses with `retry_num + 1`. -/
def executeSearch (env : Nat → GetResult) (errorDelay : Nat) :
    Nat → Nat → FetchRun
  | _, 0 => ⟨[], Option.none⟩
  | retryNum, fuel + 1 =>
    match env retryNum with
    | GetResult.ok d => ⟨[FEv.get retryNum], some (PyOutcome.ret (PyFetchReturn.json d))⟩
    | GetResult.httpError status body reset =>
      if status = 400 then
        ⟨[FEv.get retryNum], some (PyOutcome.ret (PyFetchReturn.json body))⟩
      else if status = 429 then
        match reset with
        | Option.none =>
          ⟨[FEv.get retryNum], some (PyOutcome.exn (PyError.keyError "x-rate-limit-reset"))⟩
        | some resetVal =>
          ⟨[FEv.get retryNum, FEv.slept (resetVal + retryNum * errorDelay)],
            some (PyOutcome.ret PyFetchReturn.pyNone)⟩
      else
        let preLog := [FEv.get retryNum, FEv.slept errorDelay]
        if retryNum % MAX_RETRIES_SESSION = 0 ∧ 0 < retryNum then
          let rest := executeSearch env errorDelay (retryNum + 1) fuel
          ⟨preLog ++ [FEv.rotated retryNum] ++ rest.log, rest.result⟩
        else if retryNum = MAX_RETRIES then
          ⟨preLog, some (PyOutcome.ret PyFetchReturn.pyNone)⟩
        else
          let rest := executeSearch env errorDelay (retryNum + 1) fuel
          ⟨preLog ++ rest.log, rest.result⟩

/-- Environment in which every attempt fails with a retriable (non-400,
non-429) `HTTPError`, e.g. a 500 response on every get. -/
def envAllTransient : Nat → GetResult :=
  fun _ => GetResult.httpError 500 (Payload.data 0) Option.none

/-- Whether an event is a session rotation. -/
def FEv.isRotated : FEv → Bool
  | FEv.rotated _ => true
  | _ => false

/-- A parsed record, as built by `TwitterSearch.parse_tweets`
(src/TwitterSearch.py lines 125-165), restricted to the fields the claims
use. `epoch` is the integer from the timestamp span's `data-time`
attribute (`None` when the span is absent).  `created_at` stands for the
Python string `strftime(DATE_FORMAT)` of `utcfromtimestamp(epoch)`; since
`save_tweets` only parses that string back with `strptime(DATE_FORMAT)`,
the embedding carries the underlying epoch value instead of the formatted
text, and `Option.none` models Python `None`. -/
structure Tweet where
  id_str : String
  epoch : Option Nat
  created_at : Option Nat
deriving DecidableEq

/-- Input to the date-relevant part of `parse_tweets` for a single
`li` stream item: its optional `data-item-id` attribute and the optional
`data-time` of its timestamp span. -/
structure LiNode where
  dataItemId : Option String
  timestampDataTime : Option Nat
deriving DecidableEq

/-- Embedding of the per-item logic of `TwitterSearch.parse_tweets`
(src/TwitterSearch.py lines 119-165) restricted to the claim-relevant
fields: an item without `data-item-id` is skipped (`Option.none`);
`epoch` is set from the timestamp span when present; `created_at` is set
(via `strftime` of the epoch) only when `epoch` is not `None`, and stays
`None` otherwise. -/
def parseTweet (li : LiNode) : Option Tweet :=
  match li.dataItemId with
  | Option.none => Option.none
  | some idStr =>
    let epoch := li.timestampDataTime
    let createdAt :=
      match epoch with
      | some t => some t
      | Option.none => Option.none
    some ⟨idStr, epoch, createdAt⟩

/-- Hour extracted by `time.strptime(created_at_str, DATE_FORMAT).tm_hour`
(src/TwitterSlicer.py lines 63-65) from the `created_at` string that
`parse_tweets` produced with `strftime(DATE_FORMAT)` from
`utcfromtimestamp(epoch)`: the UTC hour of the epoch value. -/
def hourOfCreatedAt (e : Nat) : Nat := e / 3600 % 24

/-- Observable file events of the `TwitterSlicer` sink: a bucket file for
(date, hour) opened (`io.open(filename, 'w')`), closed, or one record
(identified by its `id_str`) written to the open (date, hour) bucket. -/
inductive SEv where
  | opened (date : String) (hour : Nat)
  | closed (date : String) (hour : Nat)
  | wrote (date : String) (hour : Nat) (id : String)
deriving DecidableEq

/-- Mutable state of a `TwitterSlicer` object as used by `save_tweets`:
the shared counter `self.counter`, the live bucket map
`self.jsonl_files_dicts` (date string to the set of hours with an open
file, dict keys modelled as a duplicate-free list), and the cumulative
event log of file operations. -/
structure SlicerState where
  counter : Nat
  buckets : List (String × List Nat)
  events : List SEv
deriving DecidableEq

/-- Dictionary lookup `self.jsonl_files_dicts[date]` (first matching key). -/
def lookupDate : List (String × List Nat) → String → Option (List Nat)
  | [], _ => Option.none
  | (d, hrs) :: rest, key => if d = key then some hrs else lookupDate rest key

/-- Replace the hour set stored under an existing date key. -/
def updateDate : List (String × List Nat) → String → List Nat → List (String × List Nat)
  | [], _, _ => []
  | (d, hrs) :: rest, key, v =>
    if d = key then (key, v) :: rest else (d, hrs) :: updateDate rest key v

/-- Result of one `save_tweets` call: the final object state (Python
exceptions leave prior mutations in place) together with the outcome —
a normal `return True`/`return False`, or an uncaught exception. -/
def SaveResult := SlicerState × PyOutcome Bool

/-- Embedding of the bucket-management prefix of the `save_tweets` loop
body (src/TwitterSlicer.py lines 67-80 and `close_file` lines 105-108)
for one record with hour `h` on slice date `since`:
if the date has no entry, a map for it is created and a file for `h`
opened; otherwise, if `h` has no open file, `close_file` closes and
deletes the bucket keyed `str(int(h) + 1)` — raising `KeyError` when that
key is absent — and then a file for `h` is opened. -/
def bucketStep (s : SlicerState) (since : String) (h : Nat) :
    PyOutcome SlicerState :=
  match lookupDate s.buckets since with
  | Option.none =>
    PyOutcome.ret ⟨s.counter, (since, [h]) :: s.buckets, s.events ++ [SEv.opened since h]⟩
  | some hrs =>
    if h ∈ hrs then PyOutcome.ret s
    else if h + 1 ∈ hrs then
      PyOutcome.ret ⟨s.counter,
        updateDate s.buckets since (h :: hrs.erase (h + 1)),
        s.events ++ [SEv.closed since (h + 1), SEv.opened since h]⟩
    else PyOutcome.exn (PyError.keyError (toString (h + 1)))

/-- Embedding of `TwitterSlicer.save_tweets` (src/TwitterSlicer.py lines
55-103).  For each record in order: `strptime(tweet['created_at'],
DATE_FORMAT)` raises `TypeError` when `created_at` is `None`; otherwise
the record's hour selects or rotates the bucket (`bucketStep`), the
shared counter is incremented, the record is written to the open bucket,
and if the counter has reached `limit` the call returns `False`
mid-batch; a batch fully processed without reaching the limit returns
`True`. -/
def saveTweets (limit : Nat) (since : String) :
    SlicerState → List Tweet → SlicerState × PyOutcome Bool
  | s, [] => (s, PyOutcome.ret true)
  | s, t :: rest =>
    match t.created_at with
    | Option.none => (s, PyOutcome.exn PyError.typeError)
    | some e =>
      let h := hourOfCreatedAt e
      match bucketStep s since h with
      | PyOutcome.exn err => (s, PyOutcome.exn err)
      | PyOutcome.ret s1 =>
        let s2 : SlicerState :=
          ⟨s1.counter + 1, s1.buckets, s1.events ++ [SEv.wrote since h t.id_str]⟩
        if limit ≤ s2.counter then (s2, PyOutcome.ret false)
        else saveTweets limit since s2 rest

/-- Whether an event opened a bucket file. -/
def SEv.isOpened : SEv → Bool
  | SEv.opened _ _ => true
  | _ => false

/-- Raw record content of one page of `items_html`, before parsing;
`parse_tweets` turns each into a fresh Python object. -/
structure SrcTweet where
  id_str : String
deriving DecidableEq

/-- A record as parsed by `parse_tweets`, with its Python object
identity: `objId` numbers the allocation.  Re-parsing the same page
allocates fresh objects (fresh `objId`s), and two distinct record dicts
never share their `id_str` string object, so the source's
`min_tweet['id_str'] is not max_tweet['id_str']` identity test
(src/TwitterSearch.py line 61) is `objId` disequality. -/
structure PTweet where
  objId : Nat
  id_str : String
deriving DecidableEq

/-- The JSON response of one `execute_search` as consumed by
`perform_search`: its `items_html`, already viewed through
`parse_tweets` as a list of raw records (`Option.none` = JSON null). -/
structure Resp where
  items_html : Option (List SrcTweet)
deriving DecidableEq

/-- One call of `parse_tweets` on a page: allocates a fresh object per
raw record, numbering from `base`. -/
def parsePage (base : Nat) : List SrcTweet → List PTweet
  | [] => []
  | x :: xs => ⟨base, x.id_str⟩ :: parsePage (base + 1) xs

/-- Observable events of one `perform_search` run: an `execute_search`
issued for the URL built from the query and the optional `max_position`
cursor, or one `save_tweets` call with the `id_str`s of its batch. -/
inductive CEv where
  | fetched (query : String) (maxPosition : Option String)
  | savedBatch (ids : List String)
deriving DecidableEq

/-- One run of the `perform_search` loop: its event log, and whether the
fuel ran out with the `while` loop still running (`fuelOut = true`
witnesses a non-terminating execution prefix). -/
structure CrawlRun where
  events : List CEv
  fuelOut : Bool
deriving DecidableEq

/-- Embedding of the `while` loop of `TwitterSearch.perform_search`
(src/TwitterSearch.py lines 42-66).  `env i` is the response of the
`i`-th `execute_search` call of the whole run (`Option.none` = Python
`None`); `saveRes k` is the value returned by the `k`-th `save_tweets`
call (the sink is the abstract method of line 205).  Loop state carried
between iterations: the current response, `continue_search`, `min_tweet`
(a parsed object, kept with its identity), the index of the next fetch,
the allocation counter for fresh parses, and the index of the next save.
Mirrors the source: the response is re-parsed at every iteration; the
loop breaks on an empty parse; `min_tweet` is set only once; the cursor
`"TWEET-%s-%s" % (max_id, min_id)` is built and a new fetch issued only
when the `is not` identity test on the two `id_str` strings succeeds —
otherwise the loop re-runs on the same response. -/
def performSearchLoop (env : Nat → Option Resp) (saveRes : Nat → Bool)
    (query : String) (response : Option Resp) (contSearch : Bool)
    (minTweet : Option PTweet) (fetchIdx allocBase saveIdx : Nat) :
    Nat → CrawlRun
  | 0 => ⟨[], true⟩
  | fuel + 1 =>
    match response, contSearch with
    | some resp, true =>
      match resp.items_html with
      | Option.none => ⟨[], false⟩
      | some html =>
        match parsePage allocBase html with
        | [] => ⟨[], false⟩
        | t0 :: ts =>
          let tweets := t0 :: ts
          let minT := minTweet.getD t0
          let cont2 := saveRes saveIdx
          let maxT := tweets.getLast (List.cons_ne_nil t0 ts)
          let savedEv := [CEv.savedBatch (tweets.map PTweet.id_str)]
          if minT.objId ≠ maxT.objId then
            let maxPos := "TWEET-" ++ maxT.id_str ++ "-" ++ minT.id_str
            let rest := performSearchLoop env saveRes query (env fetchIdx) cont2
              (some minT) (fetchIdx + 1) (allocBase + tweets.length) (saveIdx + 1) fuel
            ⟨savedEv ++ [CEv.fetched query (some maxPos)] ++ rest.events, rest.fuelOut⟩
          else
            let rest := performSearchLoop env saveRes query response cont2
              (some minT) fetchIdx (allocBase + tweets.length) (saveIdx + 1) fuel
            ⟨savedEv ++ rest.events, rest.fuelOut⟩
    | _, _ => ⟨[], false⟩

/-- Embedding of `TwitterSearch.perform_search` (src/TwitterSearch.py
lines 34-66): builds the initial URL from the query alone, issues the
first `execute_search`, then runs the pagination loop. -/
def performSearch (env : Nat → Option Resp) (saveRes : Nat → Bool)
    (query : String) (fuel : Nat) : CrawlRun :=
  let rest := performSearchLoop env saveRes query (env 0) true Option.none 1 0 0 fuel
  ⟨CEv.fetched query Option.none :: rest.events, rest.fuelOut⟩

/-- Fetch environment with a single-record first page and a null
`items_html` on every later fetch. -/
def envSingleTweetPage : Nat → Option Resp :=
  fun i => if i = 0 then some ⟨some [⟨"7777"⟩]⟩ else some ⟨Option.none⟩

/-- A calendar date as parsed by
`datetime.datetime.strptime(s, "%Y-%m-%d")` (src/TwitterSlicer.py lines
42-43). -/
structure DateYMD where
  y : Int
  m : Int
  d : Int
deriving DecidableEq

/-- Days since the civil epoch 1970-01-01 of a Gregorian date (the
standard days-from-civil computation); `(time_until - time_since).days`
of two midnight datetimes is the difference of these values.  All
intermediate divisions act on non-negative operands for the years that
`strptime("%Y-%m-%d")` accepts. -/
def daysFromCivil (dt : DateYMD) : Int :=
  let yAdj : Int := if dt.m ≤ 2 then dt.y - 1 else dt.y
  let era : Int := (if 0 ≤ yAdj then yAdj else yAdj - 399) / 400
  let yoe : Int := yAdj - era * 400
  let mp : Int := (dt.m + 9) % 12
  let doy : Int := (153 * mp + 2) / 5 + dt.d - 1
  let doe : Int := yoe * 365 + yoe / 4 - yoe / 100 + doy
  era * 146097 + doe - 719468

/-- Gregorian date of a day count since 1970-01-01 (inverse of
`daysFromCivil`). -/
def civilFromDays (z0 : Int) : DateYMD :=
  let z : Int := z0 + 719468
  let era : Int := (if 0 ≤ z then z else z - 146096) / 146097
  let doe : Int := z - era * 146097
  let yoe : Int := (doe - doe / 1460 + doe / 36524 - doe / 146096) / 365
  let y : Int := yoe + era * 400
  let doy : Int := doe - (365 * yoe + yoe / 4 - yoe / 100)
  let mp : Int := (5 * doy + 2) / 153
  let d : Int := doy - (153 * mp + 2) / 5 + 1
  let m : Int := mp + (if mp < 10 then 3 else -9)
  ⟨if m ≤ 2 then y + 1 else y, m, d⟩

/-- Zero-pad the decimal representation of a non-negative integer to
`width` digits, as `strftime` does for `%Y`, `%m`, `%d`. -/
def padNum (width : Nat) (n : Int) : String :=
  let s := toString n.toNat
  if s.length < width then String.mk (List.replicate (width - s.length) '0') ++ s
  else s

/-- The `strftime("%Y-%m-%d")` string of the date that lies `z` days
after the civil epoch (src/TwitterSlicer.py lines 50-51). -/
def dateStr (z : Int) : String :=
  let dt := civilFromDays z
  padNum 4 dt.y ++ "-" ++ padNum 2 dt.m ++ "-" ++ padNum 2 dt.d

example : dateStr (daysFromCivil ⟨2020, 1, 1⟩) = "2020-01-01" := by decide
example : daysFromCivil ⟨2020, 1, 3⟩ - daysFromCivil ⟨2020, 1, 1⟩ = 2 := by decide

/-- One run of `TwitterSlicer.search`: whether pool construction raised
(`ThreadPoolExecutor` rejects `max_workers <= 0` with `ValueError`), the
`max_workers` value passed to the pool, the submitted tasks — each a
`(day_query, since_date_str)` argument pair of one
`tp.submit(self.perform_search, ...)` — and whether the call blocked on
`tp.shutdown(wait=True)` before returning. -/
structure SchedRun where
  poolError : Bool
  poolSize : Int
  tasks : List (String × String)
  waited : Bool
deriving DecidableEq

set_option linter.unusedVariables false in
/-- Embedding of `TwitterSlicer.search` (src/TwitterSlicer.py lines
37-53).  `since` and `untl` are the dates parsed from `self.since` and
`self.until`; `nThreads` is the constructor's `n_threads` value, which —
mirroring the source — is not consulted: the pool is built with
`max_workers = n_days` where `n_days = (time_until - time_since).days`.
When `n_days <= 0`, `ThreadPoolExecutor` raises `ValueError` before any
task is submitted.  Otherwise one task per day `i in range(0, n_days)`
is submitted with `day_query = "%s since:%s until:%s"` built from the
base query and the day's bounds, and the call waits on
`tp.shutdown(wait=True)`. -/
def twitterSlicerSearch (nThreads : Nat) (since untl : DateYMD)
    (query : String) : SchedRun :=
  let t0 := daysFromCivil since
  let t1 := daysFromCivil untl
  let nDays := t1 - t0
  if nDays ≤ 0 then ⟨true, nDays, [], false⟩
  else
    ⟨false, nDays,
      (List.range nDays.toNat).map (fun i =>
        (query ++ " since:" ++ dateStr (t0 + Int.ofNat i) ++ " until:" ++
            dateStr (t0 + Int.ofNat i + 1),
          dateStr (t0 + Int.ofNat i))),
      true⟩

/-! Theorems settling the claims. -/

/-- Under an all-transient environment every call of the retry chain
recurses: the `retry_num == MAX_RETRIES` branch is unreachable because
`MAX_RETRIES = 25` is a positive multiple of `MAX_RETRIES_SESSION = 5`,
so the session-rotation branch of the `if`/`elif` captures it. -/
theorem executeSearch_transient_noReturn (errorDelay : Nat) :
    ∀ (fuel retryNum : Nat),
      (executeSearch envAllTransient errorDelay retryNum fuel).result = Option.none := by
  intro fuel
  induction fuel with
  | zero => intro _; rfl
  | succ n ih =>
    intro r
    simp only [executeSearch, envAllTransient]
    rw [if_neg (by decide), if_neg (by decide)]
    by_cases hrot : r % MAX_RETRIES_SESSION = 0 ∧ 0 < r
    · rw [if_pos hrot]
      exact ih (r + 1)
    · rw [if_neg hrot]
      have hne : r ≠ MAX_RETRIES := by
        intro heq
        exact hrot (by subst heq; decide)
      rw [if_neg hne]
      exact ih (r + 1)

/-- C1: the claim says that when every attempt of `execute_search` fails
with a retriable (non-400, non-429) `HTTPError`, the recursive retry
chain performs at most `MAX_RETRIES = 25` attempts and then returns
`None`.  The code violates this: the `elif retry_num == MAX_RETRIES`
branch is shadowed by the session-rotation branch (25 is a positive
multiple of 5), so the chain never returns — for every fuel bound the
recursion is still running, and the run with fuel 30 has already issued
the get with `retry_num = 26`, a 27th attempt beyond the claimed bound. -/
theorem C1_retry_bound_violated :
    (∀ fuel : Nat,
        (executeSearch envAllTransient 5 0 fuel).result = Option.none) ∧
      FEv.get 26 ∈ (executeSearch envAllTransient 5 0 30).log :=
  ⟨fun fuel => executeSearch_transient_noReturn 5 fuel 0, by decide⟩

/-- C2: the claim says that on a 429 response carrying reset epoch `R`
the code waits `max(0, R - now) + retry_num * error_delay` seconds and
then retries the same URL.  The code instead sleeps `R + retry_num *
error_delay` seconds (the raw epoch, no subtraction of the current time)
and then falls off the end of the handler, returning `None` without any
further get: with `R = 1600000000` and `error_delay = 5` the run issues
exactly one get, sleeps 1600000000 seconds, and returns `None`. -/
theorem C2_rate_limit_sleep_no_retry :
    executeSearch (fun _ => GetResult.httpError 429 (Payload.data 0) (some 1600000000))
        5 0 10 =
      ⟨[FEv.get 0, FEv.slept 1600000000], some (PyOutcome.ret PyFetchReturn.pyNone)⟩ := by
  decide

/-- C3: the claim says that when the identifier of the slice's first-seen
record equals the identifier of the last record of the current page, the
crawler stops, building no next cursor and issuing no further fetch.  On
a first page holding exactly one record (id "7777") the code does not
stop: `response` is only refreshed inside the `is not` branch, so the
loop re-runs on the same response and saves the same record a second
time; the re-parse allocates fresh string objects, the identity test then
succeeds, and the crawler builds the zero-progress cursor
`TWEET-7777-7777` and issues a second fetch. -/
theorem C3_equal_bounds_no_stop :
    performSearch envSingleTweetPage (fun _ => true) "q" 5 =
      ⟨[CEv.fetched "q" Option.none, CEv.savedBatch ["7777"],
        CEv.savedBatch ["7777"],
        CEv.fetched "q" (some "TWEET-7777-7777")], false⟩ := by
  decide

/-- Environment whose first five gets fail with a retriable 500 error
and whose sixth get succeeds. -/
def envFiveTransientThenOk : Nat → GetResult :=
  fun r => if r < 5 then GetResult.httpError 500 (Payload.data 0) Option.none
    else GetResult.ok (Payload.data 1)

/-- C8 counterexample: a sequence of exactly 5 consecutive transient
failures followed by a success triggers no session rotation at all — the
rotation for `retry_num = 5` sits in that attempt's failure handler, and
the 6th attempt succeeds — refuting the claim that 5 consecutive
transient failures trigger exactly one rotation before the 6th attempt. -/
theorem C8_cex_five_failures_no_rotation :
    (executeSearch envFiveTransientThenOk 5 0 30).log.filter FEv.isRotated = [] ∧
      (executeSearch envFiveTransientThenOk 5 0 30).result =
        some (PyOutcome.ret (PyFetchReturn.json (Payload.data 1))) ∧
      ((executeSearch envFiveTransientThenOk 5 0 30).log.filter FEv.isRotated).length ≠ 1 := by
  refine ⟨by decide, by decide, by decide⟩

/-- C8 amended: the session rotation happens inside the failure handler
of each attempt whose `retry_num` is a positive multiple of
`MAX_RETRIES_SESSION = 5`, i.e. after the (5k+1)-th attempt fails and
before the (5k+2)-th attempt; so five consecutive transient failures
alone trigger no rotation, and the first rotation occurs after the 6th
failed attempt (get with `retry_num = 5`) and before the 7th attempt
(get with `retry_num = 6`), with exactly one rotation per five further
failed attempts.  Witnessed by the full event log of a 7-attempt
all-transient run and the rotation sequence of a 26-attempt run. -/
theorem C8_rotation_after_sixth_attempt :
    executeSearch envAllTransient 5 0 7 =
        ⟨[FEv.get 0, FEv.slept 5, FEv.get 1, FEv.slept 5, FEv.get 2, FEv.slept 5,
          FEv.get 3, FEv.slept 5, FEv.get 4, FEv.slept 5, FEv.get 5, FEv.slept 5,
          FEv.rotated 5, FEv.get 6, FEv.slept 5], Option.none⟩ ∧
      (executeSearch envAllTransient 5 0 26).log.filter FEv.isRotated =
        [FEv.rotated 5, FEv.rotated 10, FEv.rotated 15, FEv.rotated 20,
          FEv.rotated 25] := by
  refine ⟨by decide, by decide⟩

/-- Updating an existing date key changes exactly that key's value. -/
theorem lookupDate_updateDate (m : List (String × List Nat)) (key : String)
    (v oldv : List Nat) (hmem : lookupDate m key = some oldv) :
    lookupDate (updateDate m key v) key = some v := by
  induction m with
  | nil => simp [lookupDate] at hmem
  | cons p rest ih =>
    by_cases hk : p.1 = key
    · simp [lookupDate, updateDate, hk]
    · simp only [lookupDate, updateDate, hk, if_false, if_neg hk] at hmem ⊢
      exact ih hmem

/-- C4: when the bucket map already has an entry for the record's slice
date but no open file for the record's hour `h`, and the previously-open
bucket for hour `h + 1` exists, `save_tweets` closes and removes the
`h + 1` bucket, opens a new bucket for `(date, h)`, and only then writes
the record: the call returns normally, the event log gains exactly
`closed (h+1)`, `opened h`, `wrote h` in that order, and in the resulting
live map hour `h + 1` is gone while hour `h` is open (the other hours are
untouched). -/
theorem C4_close_next_hour_then_open (limit : Nat) (s : SlicerState)
    (since : String) (t : Tweet) (e : Nat) (hrs : List Nat)
    (hca : t.created_at = some e)
    (hlk : lookupDate s.buckets since = some hrs)
    (hnd : hrs.Nodup)
    (hmem : hourOfCreatedAt e ∉ hrs)
    (hnext : hourOfCreatedAt e + 1 ∈ hrs) :
    ∃ b s2,
      saveTweets limit since s [t] = (s2, PyOutcome.ret b) ∧
      s2.events = s.events ++
        [SEv.closed since (hourOfCreatedAt e + 1),
          SEv.opened since (hourOfCreatedAt e),
          SEv.wrote since (hourOfCreatedAt e) t.id_str] ∧
      lookupDate s2.buckets since =
        some (hourOfCreatedAt e :: hrs.erase (hourOfCreatedAt e + 1)) ∧
      hourOfCreatedAt e ∈ hourOfCreatedAt e :: hrs.erase (hourOfCreatedAt e + 1) ∧
      hourOfCreatedAt e + 1 ∉ hourOfCreatedAt e :: hrs.erase (hourOfCreatedAt e + 1) ∧
      (∀ h2, h2 ≠ hourOfCreatedAt e → h2 ≠ hourOfCreatedAt e + 1 →
        (h2 ∈ hourOfCreatedAt e :: hrs.erase (hourOfCreatedAt e + 1) ↔ h2 ∈ hrs)) := by
  set h := hourOfCreatedAt e with hh
  refine ⟨if limit ≤ s.counter + 1 then false else true,
    ⟨s.counter + 1, updateDate s.buckets since (h :: hrs.erase (h + 1)),
      (s.events ++ [SEv.closed since (h + 1), SEv.opened since h]) ++
        [SEv.wrote since h t.id_str]⟩, ?_, ?_, ?_, ?_, ?_, ?_⟩
  · simp only [saveTweets, hca, bucketStep, hlk, if_neg hmem, if_pos hnext]
    by_cases hlim : limit ≤ s.counter + 1
    · simp [hlim]
    · simp [hlim, saveTweets]
  · simp [List.append_assoc]
  · exact lookupDate_updateDate s.buckets since _ hrs hlk
  · exact List.mem_cons_self h _
  · intro hcon
    rcases List.mem_cons.mp hcon with heq | herase
    · omega
    · exact absurd ((List.Nodup.mem_erase_iff hnd).mp herase).1 (by simp)
  · intro h2 hne hne1
    constructor
    · intro hcon
      rcases List.mem_cons.mp hcon with heq | herase
      · exact absurd heq hne
      · exact ((List.Nodup.mem_erase_iff hnd).mp herase).2
    · intro hin
      exact List.mem_cons.mpr (Or.inr ((List.Nodup.mem_erase_iff hnd).mpr ⟨hne1, hin⟩))

/-- Witness for C4 at a concrete input: state with an open hour-11 bucket
for 2020-01-01, incoming record at hour 10 (epoch 36000). -/
theorem C4_close_next_hour_then_open_witness :
    (hourOfCreatedAt 36000 ∉ ([11] : List Nat)) ∧
      (hourOfCreatedAt 36000 + 1 ∈ ([11] : List Nat)) ∧
      ∃ b s2,
        saveTweets 100 "2020-01-01" ⟨0, [("2020-01-01", [11])], []⟩
            [⟨"42", some 36000, some 36000⟩] = (s2, PyOutcome.ret b) ∧
        s2.events = ([] : List SEv) ++
          [SEv.closed "2020-01-01" (hourOfCreatedAt 36000 + 1),
            SEv.opened "2020-01-01" (hourOfCreatedAt 36000),
            SEv.wrote "2020-01-01" (hourOfCreatedAt 36000) "42"] ∧
        lookupDate s2.buckets "2020-01-01" =
          some (hourOfCreatedAt 36000 :: ([11] : List Nat).erase (hourOfCreatedAt 36000 + 1)) ∧
        hourOfCreatedAt 36000 ∈
          hourOfCreatedAt 36000 :: ([11] : List Nat).erase (hourOfCreatedAt 36000 + 1) ∧
        hourOfCreatedAt 36000 + 1 ∉
          hourOfCreatedAt 36000 :: ([11] : List Nat).erase (hourOfCreatedAt 36000 + 1) ∧
        (∀ h2, h2 ≠ hourOfCreatedAt 36000 → h2 ≠ hourOfCreatedAt 36000 + 1 →
          (h2 ∈ hourOfCreatedAt 36000 :: ([11] : List Nat).erase (hourOfCreatedAt 36000 + 1) ↔
            h2 ∈ ([11] : List Nat))) :=
  ⟨by decide, by decide,
    C4_close_next_hour_then_open 100 ⟨0, [("2020-01-01", [11])], []⟩ "2020-01-01"
      ⟨"42", some 36000, some 36000⟩ 36000 [11] rfl rfl (by decide) (by decide) (by decide)⟩

/-- C5 counterexample: feeding three records timestamped at hours 10, 10,
11 of the same date to the sink does not create two bucket files — after
writing the two hour-10 records into the single file it created, the
third record makes `close_file` look up the bucket for hour `11 + 1 = 12`
which was never opened, so `save_tweets` raises `KeyError('12')`; only
one file was ever opened and no hour-11 file exists. -/
theorem C5_cex_ascending_hours_keyerror :
    saveTweets 100 "2020-01-01" ⟨0, [], []⟩
        [⟨"1", some 36000, some 36000⟩, ⟨"2", some 36060, some 36060⟩,
          ⟨"3", some 39600, some 39600⟩] =
      (⟨2, [("2020-01-01", [10])],
        [SEv.opened "2020-01-01" 10, SEv.wrote "2020-01-01" 10 "1",
          SEv.wrote "2020-01-01" 10 "2"]⟩,
        PyOutcome.exn (PyError.keyError "12")) ∧
      ((saveTweets 100 "2020-01-01" ⟨0, [], []⟩
          [⟨"1", some 36000, some 36000⟩, ⟨"2", some 36060, some 36060⟩,
            ⟨"3", some 39600, some 39600⟩]).1.events.filter SEv.isOpened).length = 1 := by
  refine ⟨by decide, by decide⟩

/-- C5 amended: the sink's rotation rule closes the bucket for hour
`h + 1`, which fits the descending hour order in which pages arrive
(newest records first).  Feeding three records timestamped at hours 11,
11, 10 of the same date creates exactly two bucket files for that date,
and the hour-11 file is closed before the hour-10 file accepts its first
write; the ascending sequence 10, 10, 11 of the original claim instead
raises `KeyError('12')` after creating only the hour-10 file. -/
theorem C5_descending_hours_two_files :
    saveTweets 100 "2020-01-01" ⟨0, [], []⟩
        [⟨"1", some 39600, some 39600⟩, ⟨"2", some 39660, some 39660⟩,
          ⟨"3", some 36000, some 36000⟩] =
      (⟨3, [("2020-01-01", [10])],
        [SEv.opened "2020-01-01" 11, SEv.wrote "2020-01-01" 11 "1",
          SEv.wrote "2020-01-01" 11 "2", SEv.closed "2020-01-01" 11,
          SEv.opened "2020-01-01" 10, SEv.wrote "2020-01-01" 10 "3"]⟩,
        PyOutcome.ret true) ∧
      ((saveTweets 100 "2020-01-01" ⟨0, [], []⟩
          [⟨"1", some 39600, some 39600⟩, ⟨"2", some 39660, some 39660⟩,
            ⟨"3", some 36000, some 36000⟩]).1.events.filter SEv.isOpened).length = 2 := by
  refine ⟨by decide, by decide⟩

/-- C6: `save_tweets` writes records one at a time, checking the shared
counter against `limit` after each write, and returns `False` as soon as
the counter reaches `limit`, leaving the rest of the batch unwritten:
for a batch whose records all fall in an already-open bucket, starting
below the budget, exactly `min batch.length (limit - counter)` records
are written (in order), the counter advances by that amount, and the
call returns `False` precisely when the batch was large enough to reach
the limit. -/
theorem C6_budget_checked_per_record :
    ∀ (ts : List Tweet) (s : SlicerState) (limit : Nat) (since : String)
      (h : Nat) (hrs : List Nat),
      lookupDate s.buckets since = some hrs → h ∈ hrs →
      (∀ t ∈ ts, ∃ e, t.created_at = some e ∧ hourOfCreatedAt e = h) →
      s.counter < limit →
      saveTweets limit since s ts =
        (⟨s.counter + min ts.length (limit - s.counter), s.buckets,
          s.events ++ (ts.take (limit - s.counter)).map
            (fun t => SEv.wrote since h t.id_str)⟩,
          if limit ≤ s.counter + ts.length then PyOutcome.ret false
          else PyOutcome.ret true) := by
  intro ts
  induction ts with
  | nil =>
    intro s limit since h hrs hlk hmem hall hlt
    have hns : ¬ limit ≤ s.counter := by omega
    simp [saveTweets, hns]
  | cons t rest ih =>
    intro s limit since h hrs hlk hmem hall hlt
    obtain ⟨e, hca, he⟩ := hall t (List.mem_cons_self t rest)
    have hallr : ∀ t2 ∈ rest, ∃ e2, t2.created_at = some e2 ∧ hourOfCreatedAt e2 = h :=
      fun t2 ht2 => hall t2 (List.mem_cons_of_mem t ht2)
    simp only [saveTweets, hca, he, bucketStep, hlk, if_pos hmem]
    by_cases hlim : limit ≤ s.counter + 1
    · rw [if_pos hlim]
      have h2 : limit - s.counter = 1 := by omega
      have hc : limit ≤ s.counter + (t :: rest).length := by
        simp only [List.length_cons]; omega
      rw [if_pos hc, h2]
      simp only [List.take_succ_cons, List.take_zero, List.map_cons, List.map_nil,
        List.length_cons]
      have h1 : min (rest.length + 1) 1 = 1 := by omega
      rw [show limit - s.counter = 1 from h2] at *
      congr 2
      omega
    · rw [if_neg hlim]
      have hlt2 : (⟨s.counter + 1, s.buckets,
          s.events ++ [SEv.wrote since h t.id_str]⟩ : SlicerState).counter < limit := by
        simp only []; omega
      rw [ih ⟨s.counter + 1, s.buckets, s.events ++ [SEv.wrote since h t.id_str]⟩
        limit since h hrs hlk hmem hallr hlt2]
      have htk : limit - s.counter = (limit - (s.counter + 1)) + 1 := by omega
      rw [htk, List.take_succ_cons]
      simp only [List.map_cons, List.length_cons]
      have hcond : s.counter + 1 + rest.length = s.counter + (rest.length + 1) := by omega
      rw [hcond]
      congr 2
      · omega
      · simp [List.append_assoc]

/-- Witness for C6 at the claim's scenario: budget `limit = 5`, counter
already at 3 after a first page of 3, second batch of 3 records in the
open hour-11 bucket — the call returns `False` with exactly the 4th and
5th records written and the 6th left unwritten. -/
theorem C6_budget_checked_per_record_witness :
    (3 < 5) ∧
      saveTweets 5 "2020-01-01" ⟨3, [("2020-01-01", [11])], []⟩
          [⟨"4", some 39600, some 39600⟩, ⟨"5", some 39660, some 39660⟩,
            ⟨"6", some 39720, some 39720⟩] =
        (⟨3 + min ([⟨"4", some 39600, some 39600⟩, ⟨"5", some 39660, some 39660⟩,
              ⟨"6", some 39720, some 39720⟩] : List Tweet).length (5 - 3),
          [("2020-01-01", [11])],
          [] ++ (([⟨"4", some 39600, some 39600⟩, ⟨"5", some 39660, some 39660⟩,
              ⟨"6", some 39720, some 39720⟩] : List Tweet).take (5 - 3)).map
            (fun t => SEv.wrote "2020-01-01" 11 t.id_str)⟩,
          if 5 ≤ 3 + ([⟨"4", some 39600, some 39600⟩, ⟨"5", some 39660, some 39660⟩,
              ⟨"6", some 39720, some 39720⟩] : List Tweet).length then PyOutcome.ret false
          else PyOutcome.ret true) :=
  ⟨by decide,
    C6_budget_checked_per_record
      [⟨"4", some 39600, some 39600⟩, ⟨"5", some 39660, some 39660⟩,
        ⟨"6", some 39720, some 39720⟩]
      ⟨3, [("2020-01-01", [11])], []⟩ 5 "2020-01-01" 11 [11] rfl (by decide)
      (by
        intro t2 ht2
        simp only [List.mem_cons, List.not_mem_nil, or_false] at ht2
        rcases ht2 with rfl | rfl | rfl
        · exact ⟨39600, rfl, rfl⟩
        · exact ⟨39660, rfl, rfl⟩
        · exact ⟨39720, rfl, rfl⟩)
      (by decide)⟩

/-- C7 counterexample: with a configured worker limit of 1 thread and a
ten-day range, the worker pool is built with `max_workers = 10` — the
pool size is the number of days, not bounded by the configured limit. -/
theorem C7_cex_pool_ignores_worker_limit :
    (twitterSlicerSearch 1 ⟨2020, 1, 1⟩ ⟨2020, 1, 11⟩ "q").poolSize = 10 ∧
      ¬((twitterSlicerSearch 1 ⟨2020, 1, 1⟩ ⟨2020, 1, 11⟩ "q").poolSize ≤ (1 : Int)) := by
  refine ⟨by decide, by decide⟩

/-- C7 amended: for every `since` and `until` with `until` after `since`,
`TwitterSlicer.search` splits `[since, until)` into exactly
`(until - since).days` consecutive one-day sub-queries, each equal to the
base query with that day's `since:` and `until:` bounds appended, submits
them to a worker pool whose `max_workers` equals the number of days (the
configured `n_threads` is ignored), and blocks until all day-tasks
complete before returning. -/
theorem C7_day_slicing (nThreads : Nat) (since untl : DateYMD) (query : String)
    (hpos : 0 < daysFromCivil untl - daysFromCivil since) :
    (twitterSlicerSearch nThreads since untl query).poolError = false ∧
      (twitterSlicerSearch nThreads since untl query).poolSize =
        daysFromCivil untl - daysFromCivil since ∧
      (twitterSlicerSearch nThreads since untl query).tasks.length =
        (daysFromCivil untl - daysFromCivil since).toNat ∧
      (twitterSlicerSearch nThreads since untl query).waited = true ∧
      ∀ i (hi : i < (twitterSlicerSearch nThreads since untl query).tasks.length),
        (twitterSlicerSearch nThreads since untl query).tasks.get ⟨i, hi⟩ =
          (query ++ " since:" ++ dateStr (daysFromCivil since + (i : Int)) ++
              " until:" ++ dateStr (daysFromCivil since + (i : Int) + 1),
            dateStr (daysFromCivil since + (i : Int))) := by
  have hneg : ¬ (daysFromCivil untl - daysFromCivil since ≤ 0) := by omega
  have hrun : twitterSlicerSearch nThreads since untl query =
      ⟨false, daysFromCivil untl - daysFromCivil since,
        (List.range (daysFromCivil untl - daysFromCivil since).toNat).map (fun i =>
          (query ++ " since:" ++ dateStr (daysFromCivil since + Int.ofNat i) ++
              " until:" ++ dateStr (daysFromCivil since + Int.ofNat i + 1),
            dateStr (daysFromCivil since + Int.ofNat i))),
        true⟩ := by
    simp only [twitterSlicerSearch, if_neg hneg]
  rw [hrun]
  refine ⟨rfl, rfl, by simp, rfl, ?_⟩
  intro i hi
  simp only [List.length_map, List.length_range] at hi
  simp only [List.get_eq_getElem, List.getElem_map, List.getElem_range]
  rfl

/-- Witness for C7 at the spec's end-to-end example: since 2020-01-01,
until 2020-01-03 yields a pool of 2 and the two expected day tasks. -/
theorem C7_day_slicing_witness :
    0 < daysFromCivil ⟨2020, 1, 3⟩ - daysFromCivil ⟨2020, 1, 1⟩ ∧
      ((twitterSlicerSearch 2 ⟨2020, 1, 1⟩ ⟨2020, 1, 3⟩ "q").poolError = false ∧
        (twitterSlicerSearch 2 ⟨2020, 1, 1⟩ ⟨2020, 1, 3⟩ "q").poolSize =
          daysFromCivil ⟨2020, 1, 3⟩ - daysFromCivil ⟨2020, 1, 1⟩ ∧
        (twitterSlicerSearch 2 ⟨2020, 1, 1⟩ ⟨2020, 1, 3⟩ "q").tasks.length =
          (daysFromCivil ⟨2020, 1, 3⟩ - daysFromCivil ⟨2020, 1, 1⟩).toNat ∧
        (twitterSlicerSearch 2 ⟨2020, 1, 1⟩ ⟨2020, 1, 3⟩ "q").waited = true ∧
        ∀ i (hi : i < (twitterSlicerSearch 2 ⟨2020, 1, 1⟩ ⟨2020, 1, 3⟩ "q").tasks.length),
          (twitterSlicerSearch 2 ⟨2020, 1, 1⟩ ⟨2020, 1, 3⟩ "q").tasks.get ⟨i, hi⟩ =
            ("q" ++ " since:" ++ dateStr (daysFromCivil ⟨2020, 1, 1⟩ + (i : Int)) ++
                " until:" ++ dateStr (daysFromCivil ⟨2020, 1, 1⟩ + (i : Int) + 1),
              dateStr (daysFromCivil ⟨2020, 1, 1⟩ + (i : Int)))) :=
  ⟨by decide, C7_day_slicing 2 ⟨2020, 1, 1⟩ ⟨2020, 1, 3⟩ "q" (by decide)⟩

/-- C9: when `since` and `until` parse to the same calendar day, the day
count is 0 and `TwitterSlicer.search` raises `ValueError` while
constructing `ThreadPoolExecutor(max_workers=0)`, submitting no task and
never reaching the blocking shutdown, instead of returning normally with
no work scheduled. -/
theorem C9_same_day_pool_valueerror (nThreads : Nat) (since untl : DateYMD)
    (query : String) (hsame : since = untl) :
    twitterSlicerSearch nThreads since untl query = ⟨true, 0, [], false⟩ := by
  subst hsame
  simp [twitterSlicerSearch]

/-- Witness for C9 at a concrete same-day range. -/
theorem C9_same_day_pool_valueerror_witness :
    twitterSlicerSearch 4 ⟨2020, 5, 5⟩ ⟨2020, 5, 5⟩ "q" = ⟨true, 0, [], false⟩ :=
  C9_same_day_pool_valueerror 4 ⟨2020, 5, 5⟩ ⟨2020, 5, 5⟩ "q" rfl

/-- C10: a stream item with a `data-item-id` but no timestamp span parses
to a record with `created_at = None`, and `save_tweets` on a batch whose
next record has `created_at = None` raises `TypeError` (from
`time.strptime(None, DATE_FORMAT)`) on that record, writing nothing and
skipping nothing — the object state is returned unchanged. -/
theorem C10_created_at_none_raises (limit : Nat) (s : SlicerState) (since : String)
    (rest : List Tweet) (li : LiNode) (idStr : String)
    (hid : li.dataItemId = some idStr) (hts : li.timestampDataTime = Option.none) :
    ∃ t, parseTweet li = some t ∧ t.created_at = Option.none ∧
      saveTweets limit since s (t :: rest) = (s, PyOutcome.exn PyError.typeError) := by
  refine ⟨⟨idStr, Option.none, Option.none⟩, ?_, rfl, rfl⟩
  simp [parseTweet, hid, hts]

/-- Witness for C10 at a concrete item with no timestamp span. -/
theorem C10_created_at_none_raises_witness :
    ∃ t, parseTweet ⟨some "9", Option.none⟩ = some t ∧ t.created_at = Option.none ∧
      saveTweets 100 "2020-01-01" ⟨0, [], []⟩ (t :: []) =
        (⟨0, [], []⟩, PyOutcome.exn PyError.typeError) :=
  C10_created_at_none_raises 100 ⟨0, [], []⟩ "2020-01-01" [] ⟨some "9", Option.none⟩ "9"
    rfl rfl
